import Mathlib

/-!
Verification development for the re-scraper pipeline.

The definitions below are a shallow embedding of the pipeline code:

* `src/app/src/scrapers/cian.py` — rent-period heuristic, card post-filter,
  dedup, rent/rooms/numeric filter stages, page-fetch retry loop;
* `src/app/src/scrapers/avito.py` — JSON-LD offer construction and the
  corresponding filter stages;
* `src/app/src/scheduler/jobs.py` — `upsert_listing` reconciliation and
  `job_scrape_city`.

Python `None`-able values are `Option`; Python truthiness (`None`, `0`,
`0.0` and `""` are falsy) is modelled explicitly by the `pyTruthy*` and
`pyOr*` helpers.  Python floats are modelled as rationals, integers as `ℤ`.
HTML parsing and regex field extraction are not modelled: extracted field
values are taken as inputs of the candidate constructors.
-/

/-- Rental period tag: the three string values "monthly" / "daily" /
"unknown" produced by the scrapers. -/
inductive RentPeriod where
  | monthly
  | daily
  | unknown
deriving DecidableEq

/-- Candidate listing: the dict shape produced by both scrapers, including
the two provisional tags (keys `_rent_period` and `_is_room`).  Tags are
`Option` because `cian.py` pops them mid-pipeline (`dict.get` on a missing
key returns `None`). -/
structure Candidate where
  source : String
  external_id : Option String
  title : Option String
  address : Option String
  rooms : Option ℤ
  area_m2 : Option ℚ
  floor : Option ℤ
  floors_total : Option ℤ
  price_rub : Option ℤ
  price_per_m2 : Option ℚ
  url : Option String
  rent_period : Option RentPeriod
  is_room : Option Bool
deriving DecidableEq

/-- The configuration fields of `src/core/config.py` consumed by the
filter stages (both scrapers read the `cian_*` settings). -/
structure Config where
  cian_deal_type : String
  cian_min_area_m2 : ℚ
  cian_max_price_rub : Option ℤ
  cian_rent_long_only : Bool
  cian_exclude_rooms : Bool
  cian_max_pages : ℕ
deriving DecidableEq

/-- Python truthiness of an optional string: `None` and `""` are falsy. -/
def pyTruthyStr : Option String → Bool
  | none => false
  | some s => decide (s ≠ "")

/-- Python truthiness of an optional int: `None` and `0` are falsy. -/
def pyTruthyInt : Option ℤ → Bool
  | none => false
  | some v => decide (v ≠ 0)

/-- Python truthiness of an optional float: `None` and `0.0` are falsy. -/
def pyTruthyQ : Option ℚ → Bool
  | none => false
  | some v => decide (v ≠ 0)

/-- Python `x or d` for an optional float `x`: the value when truthy,
else the default. -/
def pyOrQ (x : Option ℚ) (d : ℚ) : ℚ :=
  match x with
  | none => d
  | some v => if v = 0 then d else v

/-- Python `x or d` for an optional int `x`. -/
def pyOrInt (x : Option ℤ) (d : ℤ) : ℤ :=
  match x with
  | none => d
  | some v => if v = 0 then d else v

/-- Python `x or ""` for an optional string. -/
def pyOrStr : Option String → String
  | none => ""
  | some s => s

/-- Python `str.lower` restricted to ASCII letters and the Cyrillic block
actually occurring in the keyword markers (А-Я shift by 0x20, Ё → ё). -/
def pyLowerChar (c : Char) : Char :=
  if c.toNat ≥ 65 ∧ c.toNat ≤ 90 then
    Char.ofNat (c.toNat + 32)
  else if c.toNat ≥ 0x410 ∧ c.toNat ≤ 0x42F then
    Char.ofNat (c.toNat + 32)
  else if c.toNat = 0x401 then
    Char.ofNat 0x451
  else c

/-- Lowercase a whole string, character by character. -/
def pyLower (s : String) : String :=
  String.mk (s.data.map pyLowerChar)

/-- Does the character list (second argument) start with the needle
(first argument)? -/
def startsWithChars : List Char → List Char → Bool
  | [], _ => true
  | _ :: _, [] => false
  | a :: as, b :: bs => decide (a = b) && startsWithChars as bs

/-- Substring test on character lists (Python `needle in hay`). -/
def containsChars (hay needle : List Char) : Bool :=
  match hay with
  | [] => startsWithChars needle []
  | _ :: t => startsWithChars needle hay || containsChars t needle

/-- Python `needle in hay` on strings. -/
def strContains (hay needle : String) : Bool :=
  containsChars hay.data needle.data

/-- Is any of the marker substrings contained in the (already lowered)
text? -/
def hasAnyMarker (low : String) (markers : List String) : Bool :=
  markers.any (fun m => strContains low m)

/-- Daily-rent keyword markers of `cian.py` `_detect_rent_period`. -/
def dailyMarkers : List String :=
  ["посуточ", "в сутки", "за сутки", "/сут", "сутки", "в день", "/день", "за день"]

/-- Monthly-rent keyword markers of `cian.py` `_detect_rent_period`. -/
def monthlyMarkers : List String :=
  ["в месяц", "в мес", "/мес", "мес.", "месяц"]

/-- Keyword heuristic `_detect_rent_period` of `cian.py` (lines 30-39):
daily if any daily marker occurs in the lowered text, else monthly if any
monthly marker occurs, else unknown. -/
def detect_rent_period (text : String) : RentPeriod :=
  let low := pyLower text
  if hasAnyMarker low dailyMarkers then RentPeriod.daily
  else if hasAnyMarker low monthlyMarkers then RentPeriod.monthly
  else RentPeriod.unknown

/-- Daily-rent keyword markers of the (never invoked) avito variant
`_detect_rent_period` in `avito.py` (lines 86-92); it lacks the
"посуточ" marker of the cian variant. -/
def avitoDailyMarkers : List String :=
  ["в сутки", "за сутки", "/сут", "сутки", "в день", "/день", "за день"]

/-- Keyword heuristic `_detect_rent_period` of `avito.py`; defined in the
source but never called by `_parse_from_jsonld`. -/
def detect_rent_period_avito (text : String) : RentPeriod :=
  let low := pyLower text
  if hasAnyMarker low avitoDailyMarkers then RentPeriod.daily
  else if hasAnyMarker low monthlyMarkers then RentPeriod.monthly
  else RentPeriod.unknown

/-- Helper `_price_per_m2` shared by both scrapers: `price / area` when
price is truthy, area is truthy and positive, else `None`. -/
def price_per_m2_of (price : Option ℤ) (area : Option ℚ) : Option ℚ :=
  match price, area with
  | some p, some a => if p ≠ 0 ∧ a > 0 then some ((p : ℚ) / a) else none
  | _, _ => none

/-- Context string built in `_parse_cards` of `cian.py` (lines 232-237):
`" ".flatten([price_text or "", title or "", summary_txt or "", card_text or ""])`. -/
def cianContext (priceText : String) (title : Option String)
    (summaryTxt cardTxt : String) : String :=
  String.intercalate " " [priceText, pyOrStr title, summaryTxt, cardTxt]

/-- Candidate dict built for one cian card in `_parse_cards` (lines
242-256).  The regex/DOM extraction of the individual fields is abstracted
into the arguments; the room-type heuristic result is the `isRoom`
argument. -/
def cianMkCandidate (externalId url title address : Option String)
    (rooms floorNo floorsTotal : Option ℤ) (area : Option ℚ)
    (priceRub : Option ℤ) (priceText summaryTxt cardTxt : String)
    (isRoom : Bool) : Candidate :=
  { source := "cian"
    external_id := externalId
    title := title
    address := address
    rooms := rooms
    area_m2 := area
    floor := floorNo
    floors_total := floorsTotal
    price_rub := priceRub
    price_per_m2 := price_per_m2_of priceRub area
    url := url
    rent_period := some (detect_rent_period (cianContext priceText title summaryTxt cardTxt))
    is_room := some isRoom }

/-- Candidate dict built for one avito JSON-LD offer in
`_parse_from_jsonld` (lines 147-161).  Offers without a url or title are
skipped before this point, so url and title are plain strings.  Note the
hard-coded `"_rent_period": "monthly"` of line 159. -/
def avitoMkOffer (url name : String) (priceRub : Option ℤ) (area : Option ℚ)
    (rooms floorNo floorsTotal : Option ℤ) (externalId : Option String)
    (isRoom : Bool) : Candidate :=
  { source := "avito"
    external_id := externalId
    title := some name
    address := none
    rooms := rooms
    area_m2 := area
    floor := floorNo
    floors_total := floorsTotal
    price_rub := priceRub
    price_per_m2 := price_per_m2_of priceRub area
    url := some url
    rent_period := some RentPeriod.monthly
    is_room := some isRoom }

/-- Final filter of `_parse_cards` in `cian.py` (line 260) and of
`_parse_from_jsonld` in `avito.py` (line 163):
`[c for c in cards if c.get("url")]` — keep only candidates with a truthy
url. -/
def keep_with_url (l : List Candidate) : List Candidate :=
  l.filter (fun c => pyTruthyStr c.url)

/-- Dedup key used by both fetchers: the pair `(external_id, url)`. -/
def ckey (c : Candidate) : Option String × Option String :=
  (c.external_id, c.url)

/-- Dedup loop shared by `fetch_cian` (lines 290-298) and `fetch_avito`
(lines 202-206): skip an item whose key was already seen, otherwise keep
it and record the key. -/
def dedupGo : List Candidate → List (Option String × Option String) → List Candidate
  | [], _ => []
  | c :: rest, seen =>
    if ckey c ∈ seen then dedupGo rest seen
    else c :: dedupGo rest (ckey c :: seen)

/-- Dedup by `(external_id, url)`, first occurrence wins. -/
def dedup (l : List Candidate) : List Candidate :=
  dedupGo l []

/-- Strip the provisional tags (`pop("_is_room")`, `pop("_rent_period")`). -/
def stripTags (c : Candidate) : Candidate :=
  { c with rent_period := none, is_room := none }

/-- Long-rent filter stage of `fetch_cian` (lines 300-304): applied only
when `cian_deal_type == "rent"` and `cian_rent_long_only` are both set;
keeps items whose `_rent_period` is not `"daily"`. -/
def longStageCian (cfg : Config) (l : List Candidate) : List Candidate :=
  if cfg.cian_deal_type = "rent" ∧ cfg.cian_rent_long_only then
    l.filter (fun c => decide (c.rent_period ≠ some RentPeriod.daily))
  else l

/-- Long-rent filter stage of `fetch_avito` (lines 208-211): applied
whenever `cian_rent_long_only` is set. -/
def longStageAvito (cfg : Config) (l : List Candidate) : List Candidate :=
  if cfg.cian_rent_long_only then
    l.filter (fun c => decide (c.rent_period ≠ some RentPeriod.daily))
  else l

/-- Rooms filter stage (`cian.py` lines 312-315, `avito.py` lines
213-216): when `cian_exclude_rooms` is set, keep items whose `_is_room`
lookup is not truthy (`not it.get("_is_room")`). -/
def roomsStage (flag : Bool) (l : List Candidate) : List Candidate :=
  if flag then l.filter (fun c => decide (c.is_room ≠ some true)) else l

/-- Numeric filter predicate of `fetch_cian` (lines 317-325): area present
and at least the minimum; price checked only when a maximum is configured
(`is not None`), in which case the price must be present and at most the
maximum. -/
def numericOkCian (cfg : Config) (c : Candidate) : Bool :=
  let area_ok :=
    match c.area_m2 with
    | some a => decide (cfg.cian_min_area_m2 ≤ a)
    | none => false
  let price_ok :=
    match cfg.cian_max_price_rub with
    | some mx =>
      match c.price_rub with
      | some p => decide (p ≤ mx)
      | none => false
    | none => true
  area_ok && price_ok

/-- Numeric filter predicate of `fetch_avito` (lines 218-223): area as in
cian, but the price must always be present and at most
`cian_max_price_rub or 10**12` (Python truthy-or). -/
def numericOkAvito (cfg : Config) (c : Candidate) : Bool :=
  let area_ok :=
    match c.area_m2 with
    | some a => decide (cfg.cian_min_area_m2 ≤ a)
    | none => false
  let price_ok :=
    match c.price_rub with
    | some p => decide (p ≤ pyOrInt cfg.cian_max_price_rub (10 ^ 12))
    | none => false
  area_ok && price_ok

/-- Post-fetch pipeline of `fetch_cian` (lines 290-329): dedup, long-rent
filter, pop the provisional tags, rooms filter, numeric filter.  Note that
the source pops the tags (lines 307-309) before the rooms filter runs. -/
def cianNormalize (cfg : Config) (l : List Candidate) : List Candidate :=
  let d1 := dedup l
  let d2 := longStageCian cfg d1
  let d3 := d2.map stripTags
  let d4 := roomsStage cfg.cian_exclude_rooms d3
  d4.filter (numericOkCian cfg)

/-- Post-fetch pipeline of `fetch_avito` (lines 202-230): dedup, long-rent
filter, rooms filter, numeric filter, then pop the provisional tags. -/
def avitoNormalize (cfg : Config) (l : List Candidate) : List Candidate :=
  let d1 := dedup l
  let d2 := longStageAvito cfg d1
  let d3 := roomsStage cfg.cian_exclude_rooms d2
  let d4 := d3.filter (numericOkAvito cfg)
  d4.map stripTags

/-- Stored listing row (`Listing` in `src/db/models.py`), restricted to
the columns the reconciliation engine reads or writes.  `id` is the
autoincrement primary key; server timestamps and the `active` flag are
never touched by `upsert_listing` and are omitted. -/
structure StoredListing where
  id : ℕ
  source : String
  external_id : Option String
  title : Option String
  address : Option String
  rooms : Option ℤ
  area_m2 : Option ℚ
  floor : Option ℤ
  floors_total : Option ℤ
  price_rub : Option ℤ
  price_per_m2 : Option ℚ
  url : Option String
deriving DecidableEq

/-- Price snapshot row (`PriceSnapshot` in `src/db/models.py`);
the write-time timestamp is abstracted away. -/
structure Snapshot where
  listing_id : ℕ
  price_rub : Option ℤ
  price_per_m2 : Option ℚ
deriving DecidableEq

/-- The listing store: the listings table, the snapshots table (in append
order) and the next autoincrement id. -/
structure Store where
  listings : List StoredListing
  snapshots : List Snapshot
  nextId : ℕ
deriving DecidableEq

/-- The empty store. -/
def emptyStore : Store :=
  { listings := [], snapshots := [], nextId := 0 }

/-- Row predicate of the lookup query in `upsert_listing` (lines 12-14):
`Listing.source == src, Listing.external_id == ext` (SQLAlchemy renders
`== None` as `IS NULL`, which plain `Option` equality models). -/
def listing_pred (src : String) (ext : Option String) : StoredListing → Bool :=
  fun l => decide (l.source = src ∧ l.external_id = ext)

/-- Lookup of the existing stored listing (first matching row). -/
def find_listing (s : Store) (src : String) (ext : Option String) : Option StoredListing :=
  s.listings.find? (listing_pred src ext)

/-- Replace the first row satisfying the predicate (mutation of the row
object returned by the lookup). -/
def replaceFirst (l : List StoredListing) (pred : StoredListing → Bool)
    (x : StoredListing) : List StoredListing :=
  match l with
  | [] => []
  | a :: t => if pred a then x :: t else a :: replaceFirst t pred x

/-- Derived `price_per_m2` of the insert branch (`upsert_listing` lines
17-19): `Listing(**payload)` keeps the candidate value, overwritten with
`price_rub / area_m2` when both `payload.get("area_m2")` and
`payload.get("price_rub")` are truthy. -/
def insert_ppm2 (p : Candidate) : Option ℚ :=
  match p.area_m2, p.price_rub with
  | some a, some pr => if a ≠ 0 ∧ pr ≠ 0 then some ((pr : ℚ) / a) else p.price_per_m2
  | _, _ => p.price_per_m2

/-- The new row built by the insert branch of `upsert_listing`. -/
def new_listing (rowId : ℕ) (p : Candidate) : StoredListing :=
  { id := rowId
    source := p.source
    external_id := p.external_id
    title := p.title
    address := p.address
    rooms := p.rooms
    area_m2 := p.area_m2
    floor := p.floor
    floors_total := p.floors_total
    price_rub := p.price_rub
    price_per_m2 := insert_ppm2 p
    url := p.url }

/-- The mutated row of the update branch of `upsert_listing` (lines
29-30): `obj.price_rub = new_price;
obj.price_per_m2 = new_price / (payload.get("area_m2") or obj.area_m2 or 1)`. -/
def updated_listing (obj : StoredListing) (p : Candidate) (v : ℤ) : StoredListing :=
  { obj with
    price_rub := some v
    price_per_m2 := some ((v : ℚ) / pyOrQ p.area_m2 (pyOrQ obj.area_m2 1)) }

/-- Reconciliation engine `upsert_listing` of `src/scheduler/jobs.py`
(lines 10-35).  Insert branch: build the row, flush (assigning the next
id), append the initial snapshot.  Update branch: only when
`payload.get("price_rub")` is truthy and differs from the stored price,
mutate the two price fields of the found row and append one snapshot;
otherwise nothing changes. -/
def upsert_listing (s : Store) (p : Candidate) : Store :=
  match find_listing s p.source p.external_id with
  | none =>
    let obj := new_listing s.nextId p
    { listings := s.listings ++ [obj]
      snapshots := s.snapshots ++
        [{ listing_id := obj.id, price_rub := obj.price_rub, price_per_m2 := obj.price_per_m2 }]
      nextId := s.nextId + 1 }
  | some obj =>
    match p.price_rub with
    | none => s
    | some v =>
      if v ≠ 0 ∧ some v ≠ obj.price_rub then
        let obj2 := updated_listing obj p v
        { listings := replaceFirst s.listings (listing_pred p.source p.external_id) obj2
          snapshots := s.snapshots ++
            [{ listing_id := obj2.id, price_rub := obj2.price_rub, price_per_m2 := obj2.price_per_m2 }]
          nextId := s.nextId }
      else s

/-- Sequential reconciliation of a list of candidates. -/
def upsert_all (s : Store) (l : List Candidate) : Store :=
  l.foldl upsert_listing s

/-- Orchestrator `job_scrape_city` of `src/scheduler/jobs.py` (lines
37-45): upsert every cian candidate, then every avito candidate, then
commit.  The two fetch results are parameters of the model (network). -/
def job_scrape_city (s : Store) (cianItems avitoItems : List Candidate) : Store :=
  upsert_all (upsert_all s cianItems) avitoItems

/-- HTTP response as classified by `_fetch_page`: status code and body. -/
structure Response where
  status : ℕ
  body : String

/-- Fetch failure taxonomy of `_fetch_page` in `cian.py`. -/
inductive FetchErr where
  | antiBot
  | httpStatus (code : ℕ)
  | short
deriving DecidableEq

/-- Anti-bot text markers of `cian.py` (lines 17-20), matched against the
lowered body (the two markers containing capitals can therefore never
match; kept verbatim from the source). -/
def ANTI_BOT_MARKERS : List String :=
  ["вы робот", "подтвердите, что вы не робот", "captcha",
   "подозрительная активность", "Too Many Requests", "Доступ временно ограничен"]

/-- Response classification of `_fetch_page` in `cian.py` (lines
138-147): anti-bot marker in the lowered body, then status ≥ 400, then a
body shorter than 5000 characters; otherwise the body is returned. -/
def classify_cian (r : Response) : Except FetchErr String :=
  if hasAnyMarker (pyLower r.body) ANTI_BOT_MARKERS then Except.error FetchErr.antiBot
  else if 400 ≤ r.status then Except.error (FetchErr.httpStatus r.status)
  else if r.body.length < 5000 then Except.error FetchErr.short
  else Except.ok r.body

/-- Backoff delay (seconds, as a rational) slept after failed attempt `n`,
per the tenacity configuration of `_fetch_page` in `cian.py`:
`wait_exponential(multiplier=0.8, min=1, max=10)`, i.e.
`max(max(0, min), min(multiplier * 2 ** attempt_number, max))`. -/
def wait_cian (n : ℕ) : ℚ :=
  max (max 0 1) (min ((4 / 5) * 2 ^ n) 10)

/-- Retry loop of the `@retry` decorator on `_fetch_page` in `cian.py`:
`stop_after_attempt(4)`, retry on `FetchError`, reraise the last error.
Returns the final outcome, the number of attempts made, and the list of
backoff delays slept.  `f a` is the classified outcome of attempt `a`. -/
def retry_fetch (f : ℕ → Except FetchErr String) :
    Except FetchErr String × ℕ × List ℚ :=
  match f 1 with
  | Except.ok h => (Except.ok h, 1, [])
  | Except.error _ =>
    match f 2 with
    | Except.ok h => (Except.ok h, 2, [wait_cian 1])
    | Except.error _ =>
      match f 3 with
      | Except.ok h => (Except.ok h, 3, [wait_cian 1, wait_cian 2])
      | Except.error _ =>
        match f 4 with
        | Except.ok h => (Except.ok h, 4, [wait_cian 1, wait_cian 2, wait_cian 3])
        | Except.error e => (Except.error e, 4, [wait_cian 1, wait_cian 2, wait_cian 3])

/-- Page loop of `fetch_cian` (lines 269-287): fetch pages starting at
`p` with the given fuel (remaining page budget); on a fetch error after
retries, stop and keep what was collected; otherwise parse the page,
append its items, and stop early when a page yields fewer than 5 items.
`resp page attempt` is the response of one attempt on one page. -/
def fetch_pages_go (resp : ℕ → ℕ → Response) (parse : String → List Candidate) :
    ℕ → ℕ → List Candidate
  | _, 0 => []
  | p, fuel + 1 =>
    match (retry_fetch (fun a => classify_cian (resp p a))).1 with
    | Except.error _ => []
    | Except.ok html =>
      let items := parse html
      if items.length < 5 then items
      else items ++ fetch_pages_go resp parse (p + 1) fuel

/-- Page loop of `fetch_cian`: pages `1 .. max(1, cian_max_pages)`. -/
def fetch_pages_cian (resp : ℕ → ℕ → Response) (parse : String → List Candidate)
    (maxPages : ℕ) : List Candidate :=
  fetch_pages_go resp parse 1 (max 1 maxPages)

/-- The whole `fetch_cian`: page loop followed by the normalize/filter
pipeline. -/
def fetch_cian_model (cfg : Config) (resp : ℕ → ℕ → Response)
    (parse : String → List Candidate) : List Candidate :=
  cianNormalize cfg (fetch_pages_cian resp parse cfg.cian_max_pages)

/-! ### Lemmas about the dedup stage -/

theorem dedupGo_sublist (l : List Candidate)
    (seen : List (Option String × Option String)) :
    (dedupGo l seen).Sublist l := by
  induction l generalizing seen with
  | nil => simp [dedupGo]
  | cons c t ih =>
    by_cases h : ckey c ∈ seen
    · simp only [dedupGo, if_pos h]
      exact (ih seen).cons c
    · simp only [dedupGo, if_neg h]
      exact (ih _).cons₂ c

theorem mem_dedupGo_not_seen (l : List Candidate)
    (seen : List (Option String × Option String)) :
    ∀ c ∈ dedupGo l seen, ckey c ∉ seen := by
  induction l generalizing seen with
  | nil => simp [dedupGo]
  | cons a t ih =>
    intro c hc
    by_cases h : ckey a ∈ seen
    · exact ih seen c (by simpa [dedupGo, if_pos h] using hc)
    · have hc' : c = a ∨ c ∈ dedupGo t (ckey a :: seen) := by
        simpa [dedupGo, if_neg h] using hc
      rcases hc' with rfl | hm
      · exact h
      · have hns := ih (ckey a :: seen) c hm
        exact fun hs => hns (List.mem_cons_of_mem _ hs)

theorem dedupGo_pairwise (l : List Candidate)
    (seen : List (Option String × Option String)) :
    (dedupGo l seen).Pairwise (fun a b => ckey a ≠ ckey b) := by
  induction l generalizing seen with
  | nil => simp [dedupGo]
  | cons a t ih =>
    by_cases h : ckey a ∈ seen
    · simpa [dedupGo, if_pos h] using ih seen
    · simp only [dedupGo, if_neg h]
      refine List.Pairwise.cons ?_ (ih _)
      intro b hb
      have hns := mem_dedupGo_not_seen t (ckey a :: seen) b hb
      exact fun he => hns (List.mem_cons.mpr (Or.inl he.symm))

theorem dedupGo_filter_key (l : List Candidate)
    (k : Option String × Option String) :
    ∀ seen, (dedupGo l seen).filter (fun c => decide (ckey c = k))
      = if k ∈ seen then []
        else (l.filter (fun c => decide (ckey c = k))).take 1 := by
  induction l with
  | nil =>
    intro seen
    by_cases h : k ∈ seen <;> simp [dedupGo, h]
  | cons a t ih =>
    intro seen
    by_cases h : ckey a ∈ seen
    · simp only [dedupGo, if_pos h]
      rw [ih seen]
      by_cases hk : k ∈ seen
      · simp [hk]
      · have hne : ¬ (ckey a = k) := fun he => hk (he ▸ h)
        simp [hk, List.filter_cons, hne]
    · simp only [dedupGo, if_neg h]
      by_cases hak : ckey a = k
      · subst hak
        simp [List.filter_cons, ih, h]
      · have hmem : (k ∈ ckey a :: seen) ↔ k ∈ seen := by
          constructor
          · intro hx
            rcases List.mem_cons.mp hx with he | hs
            · exact absurd he.symm hak
            · exact hs
          · exact List.mem_cons_of_mem _
        rw [List.filter_cons]
        simp only [hak, decide_False, if_false]
        rw [ih (ckey a :: seen)]
        by_cases hk : k ∈ seen
        · simp [hk, hmem]
        · simp [hk, hmem, List.filter_cons, hak]

theorem dedup_sublist (l : List Candidate) : (dedup l).Sublist l :=
  dedupGo_sublist l []

theorem dedup_pairwise (l : List Candidate) :
    (dedup l).Pairwise (fun a b => ckey a ≠ ckey b) :=
  dedupGo_pairwise l []

theorem dedup_filter_key (l : List Candidate)
    (k : Option String × Option String) :
    (dedup l).filter (fun c => decide (ckey c = k))
      = (l.filter (fun c => decide (ckey c = k))).take 1 := by
  have h := dedupGo_filter_key l k []
  simpa [dedup] using h

/-! ### Lemmas about the filter stages -/

theorem longStageCian_sublist (cfg : Config) (l : List Candidate) :
    (longStageCian cfg l).Sublist l := by
  unfold longStageCian
  split
  · exact List.filter_sublist l
  · exact List.Sublist.refl l

theorem longStageAvito_sublist (cfg : Config) (l : List Candidate) :
    (longStageAvito cfg l).Sublist l := by
  unfold longStageAvito
  split
  · exact List.filter_sublist l
  · exact List.Sublist.refl l

theorem roomsStage_sublist (flag : Bool) (l : List Candidate) :
    (roomsStage flag l).Sublist l := by
  unfold roomsStage
  split
  · exact List.filter_sublist l
  · exact List.Sublist.refl l

theorem ckey_stripTags (c : Candidate) : ckey (stripTags c) = ckey c := rfl

theorem pairwise_key_map_stripTags {l : List Candidate}
    (h : l.Pairwise (fun a b => ckey a ≠ ckey b)) :
    (l.map stripTags).Pairwise (fun a b => ckey a ≠ ckey b) := by
  rw [List.pairwise_map]
  exact h

theorem cianNormalize_pairwise (cfg : Config) (l : List Candidate) :
    (cianNormalize cfg l).Pairwise (fun a b => ckey a ≠ ckey b) := by
  unfold cianNormalize
  have h1 := dedup_pairwise l
  have h2 := List.Pairwise.sublist (longStageCian_sublist cfg (dedup l)) h1
  have h3 := pairwise_key_map_stripTags h2
  have h4 := List.Pairwise.sublist
    (roomsStage_sublist cfg.cian_exclude_rooms ((longStageCian cfg (dedup l)).map stripTags)) h3
  exact List.Pairwise.sublist (List.filter_sublist _) h4

theorem avitoNormalize_pairwise (cfg : Config) (l : List Candidate) :
    (avitoNormalize cfg l).Pairwise (fun a b => ckey a ≠ ckey b) := by
  unfold avitoNormalize
  have h1 := dedup_pairwise l
  have h2 := List.Pairwise.sublist (longStageAvito_sublist cfg (dedup l)) h1
  have h3 := List.Pairwise.sublist
    (roomsStage_sublist cfg.cian_exclude_rooms (longStageAvito cfg (dedup l))) h2
  have h4 : ((roomsStage cfg.cian_exclude_rooms (longStageAvito cfg (dedup l))).filter
      (numericOkAvito cfg)).Pairwise (fun a b => ckey a ≠ ckey b) :=
    List.Pairwise.sublist (List.filter_sublist _) h3
  exact pairwise_key_map_stripTags h4

theorem cianNormalize_sublist (cfg : Config) (l : List Candidate) :
    (cianNormalize cfg l).Sublist (l.map stripTags) := by
  unfold cianNormalize
  have h1 : (longStageCian cfg (dedup l)).Sublist l :=
    (longStageCian_sublist cfg (dedup l)).trans (dedup_sublist l)
  have h2 := h1.map stripTags
  have h3 := (roomsStage_sublist cfg.cian_exclude_rooms
    ((longStageCian cfg (dedup l)).map stripTags)).trans h2
  exact (List.filter_sublist _).trans h3

theorem avitoNormalize_sublist (cfg : Config) (l : List Candidate) :
    (avitoNormalize cfg l).Sublist (l.map stripTags) := by
  unfold avitoNormalize
  have h1 : (longStageAvito cfg (dedup l)).Sublist l :=
    (longStageAvito_sublist cfg (dedup l)).trans (dedup_sublist l)
  have h2 := (roomsStage_sublist cfg.cian_exclude_rooms
    (longStageAvito cfg (dedup l))).trans h1
  have h3 : ((roomsStage cfg.cian_exclude_rooms (longStageAvito cfg (dedup l))).filter
      (numericOkAvito cfg)).Sublist l :=
    (List.filter_sublist _).trans h2
  exact h3.map stripTags

/-! ### Concrete fixtures -/

/-- Candidate with every optional field absent. -/
def baseCand : Candidate :=
  { source := "cian", external_id := none, title := none, address := none,
    rooms := none, area_m2 := none, floor := none, floors_total := none,
    price_rub := none, price_per_m2 := none, url := none,
    rent_period := none, is_room := none }

/-- Rent configuration with both exclusion flags set and no numeric
limits. -/
def cfgRent : Config :=
  { cian_deal_type := "rent", cian_min_area_m2 := 0, cian_max_price_rub := none,
    cian_rent_long_only := true, cian_exclude_rooms := true, cian_max_pages := 3 }

/-- Sale configuration with the long-rent flag still set. -/
def cfgSale : Config :=
  { cian_deal_type := "sale", cian_min_area_m2 := 0, cian_max_price_rub := none,
    cian_rent_long_only := true, cian_exclude_rooms := false, cian_max_pages := 3 }

/-- Configuration with no maximum price and no filters enabled. -/
def cfgOpen : Config :=
  { cian_deal_type := "rent", cian_min_area_m2 := 0, cian_max_price_rub := none,
    cian_rent_long_only := false, cian_exclude_rooms := false, cian_max_pages := 1 }

/-- Candidate tagged as a room listing. -/
def cRoom : Candidate :=
  { baseCand with
    external_id := some "1"
    url := some "u"
    area_m2 := some 30
    price_rub := some 100
    rent_period := some RentPeriod.monthly
    is_room := some true }

/-- Candidate tagged daily. -/
def cDaily : Candidate :=
  { baseCand with
    external_id := some "1"
    url := some "u"
    area_m2 := some 30
    price_rub := some 100
    rent_period := some RentPeriod.daily
    is_room := some false }

/-- Candidate tagged unknown. -/
def cUnknown : Candidate :=
  { baseCand with
    external_id := some "2"
    url := some "u2"
    area_m2 := some 30
    price_rub := some 100
    rent_period := some RentPeriod.unknown
    is_room := some false }

/-- Candidate with area but no price. -/
def cNoPrice : Candidate :=
  { baseCand with
    external_id := some "1"
    url := some "u"
    area_m2 := some 50 }

/-- C7: both normalizers produce no two candidates sharing the pair
(external_id, url); the dedup stage keeps exactly the first occurrence of
each key and is a sublist of its input; each full normalizer output is a
sublist of the (tag-stripped) input, so the relative input order is
preserved. -/
theorem c7_dedup_no_duplicate_keys (cfg : Config) (l : List Candidate) :
    ((cianNormalize cfg l).Pairwise (fun a b => ckey a ≠ ckey b))
    ∧ ((avitoNormalize cfg l).Pairwise (fun a b => ckey a ≠ ckey b))
    ∧ (dedup l).Sublist l
    ∧ (∀ k, (dedup l).filter (fun c => decide (ckey c = k))
        = (l.filter (fun c => decide (ckey c = k))).take 1)
    ∧ (cianNormalize cfg l).Sublist (l.map stripTags)
    ∧ (avitoNormalize cfg l).Sublist (l.map stripTags) :=
  ⟨cianNormalize_pairwise cfg l, avitoNormalize_pairwise cfg l,
   dedup_sublist l, dedup_filter_key l,
   cianNormalize_sublist cfg l, avitoNormalize_sublist cfg l⟩

/-- C3 (code bug): with `cian_exclude_rooms` configured, a candidate
tagged `is_room == true` nevertheless survives the whole cian
normalizer/filter stage, because `fetch_cian` pops the `_is_room` key
(lines 307-309) before the rooms filter (lines 312-315) looks it up; the
same candidate is correctly dropped by the avito stage, which pops the
tags last. -/
theorem c3_rooms_filter_noop_on_cian :
    cfgRent.cian_exclude_rooms = true
    ∧ cRoom.is_room = some true
    ∧ cianNormalize cfgRent [cRoom] = [stripTags cRoom]
    ∧ avitoNormalize cfgRent [cRoom] = [] := by
  decide

/-- C4 counterexample: an avito JSON-LD offer whose title contains the
daily marker "в сутки" is tagged monthly by `_parse_from_jsonld`, while
the keyword heuristic (either variant) classifies the same text as daily. -/
theorem c4_counterexample :
    (avitoMkOffer "https://www.avito.ru/123" "Квартира 30 м² в сутки"
      (some 1000) none none none none (some "123") false).rent_period
        = some RentPeriod.monthly
    ∧ detect_rent_period "Квартира 30 м² в сутки" = RentPeriod.daily
    ∧ detect_rent_period_avito "Квартира 30 м² в сутки" = RentPeriod.daily
    ∧ RentPeriod.monthly ≠ RentPeriod.daily := by
  decide

/-- C4 (amended): every cian candidate carries the rental period computed
by the keyword heuristic over the joined price/title/summary/card text
(daily if any daily marker is present, else monthly if any monthly marker
is present, else unknown), while every avito JSON-LD candidate is
unconditionally tagged monthly. -/
theorem c4_rent_period_tagging
    (externalId url title address : Option String)
    (rooms floorNo floorsTotal : Option ℤ) (area : Option ℚ)
    (priceRub : Option ℤ) (priceText summaryTxt cardTxt : String)
    (isRoom : Bool) (aurl aname : String) (apr : Option ℤ) (aarea : Option ℚ)
    (arooms afl aft : Option ℤ) (aext : Option String) (aroom : Bool)
    (t : String) :
    (cianMkCandidate externalId url title address rooms floorNo floorsTotal
        area priceRub priceText summaryTxt cardTxt isRoom).rent_period
      = some (detect_rent_period (cianContext priceText title summaryTxt cardTxt))
    ∧ (avitoMkOffer aurl aname apr aarea arooms afl aft aext aroom).rent_period
      = some RentPeriod.monthly
    ∧ (hasAnyMarker (pyLower t) dailyMarkers = true →
        detect_rent_period t = RentPeriod.daily)
    ∧ (hasAnyMarker (pyLower t) dailyMarkers = false →
        hasAnyMarker (pyLower t) monthlyMarkers = true →
        detect_rent_period t = RentPeriod.monthly)
    ∧ (hasAnyMarker (pyLower t) dailyMarkers = false →
        hasAnyMarker (pyLower t) monthlyMarkers = false →
        detect_rent_period t = RentPeriod.unknown) := by
  refine ⟨rfl, rfl, ?_, ?_, ?_⟩
  · intro hd
    simp [detect_rent_period, hd]
  · intro hd hm
    simp [detect_rent_period, hd, hm]
  · intro hd hm
    simp [detect_rent_period, hd, hm]

/-- Witness for `c4_rent_period_tagging` at concrete inputs. -/
theorem c4_rent_period_tagging_witness :
    (cianMkCandidate none none none none none none none none none
        "50 000 ₽ в месяц" "" "" false).rent_period
      = some (detect_rent_period (cianContext "50 000 ₽ в месяц" none "" ""))
    ∧ (avitoMkOffer "u" "n" none none none none none none false).rent_period
      = some RentPeriod.monthly
    ∧ detect_rent_period "посуточно" = RentPeriod.daily := by
  have h := c4_rent_period_tagging none none none none none none none none none
    "50 000 ₽ в месяц" "" "" false "u" "n" none none none none none none false
    "посуточно"
  exact ⟨h.1, h.2.1, h.2.2.1 (by decide)⟩

/-- C5 counterexample: with no maximum price configured, a candidate with
sufficient area but absent price_rub is dropped by the avito numeric
filter (it survives the cian one). -/
theorem c5_counterexample :
    numericOkAvito cfgOpen cNoPrice = false
    ∧ cfgOpen.cian_max_price_rub = none
    ∧ cNoPrice.area_m2 = some 50
    ∧ cfgOpen.cian_min_area_m2 ≤ 50
    ∧ cNoPrice.price_rub = none
    ∧ numericOkCian cfgOpen cNoPrice = true := by
  decide

/-- C5 (amended): a candidate survives the cian numeric filter iff its
area is present and at least the minimum, and either no maximum price is
configured or the price is present and at most the maximum; a candidate
survives the avito numeric filter iff its area is present and at least the
minimum and its price is present and at most `cian_max_price_rub or
10**12` (so with no maximum configured avito still requires a present
price). -/
theorem c5_numeric_filter_characterization (cfg : Config) (c : Candidate) :
    (numericOkCian cfg c = true ↔
      ((∃ a, c.area_m2 = some a ∧ cfg.cian_min_area_m2 ≤ a)
        ∧ (cfg.cian_max_price_rub = none
            ∨ ∃ p mx, c.price_rub = some p ∧ cfg.cian_max_price_rub = some mx ∧ p ≤ mx)))
    ∧ (numericOkAvito cfg c = true ↔
      ((∃ a, c.area_m2 = some a ∧ cfg.cian_min_area_m2 ≤ a)
        ∧ ∃ p, c.price_rub = some p ∧ p ≤ pyOrInt cfg.cian_max_price_rub (10 ^ 12)))
    ∧ (∀ l : List Candidate,
        c ∈ l.filter (numericOkCian cfg) ↔ c ∈ l ∧ numericOkCian cfg c = true)
    ∧ (∀ l : List Candidate,
        c ∈ l.filter (numericOkAvito cfg) ↔ c ∈ l ∧ numericOkAvito cfg c = true) := by
  refine ⟨?_, ?_, fun l => List.mem_filter, fun l => List.mem_filter⟩
  · unfold numericOkCian
    cases harea : c.area_m2 <;> cases hmax : cfg.cian_max_price_rub <;>
      cases hp : c.price_rub <;> simp
  · unfold numericOkAvito
    cases harea : c.area_m2 <;> cases hp : c.price_rub <;> simp

/-- C6 counterexample: with `cian_rent_long_only` configured but the deal
type set to "sale", a candidate tagged daily survives the whole cian
filter stage (the source guards the filter with
`settings.cian_deal_type == "rent"`). -/
theorem c6_counterexample :
    cfgSale.cian_rent_long_only = true
    ∧ cDaily.rent_period = some RentPeriod.daily
    ∧ cianNormalize cfgSale [cDaily] = [stripTags cDaily] := by
  decide

/-- C6 (amended): for cian, when the deal type is "rent" and
`cian_rent_long_only` is set, the long-rent filter stage drops every
candidate tagged daily and keeps every candidate tagged unknown; for
avito the flag alone enables the same behaviour. -/
theorem c6_long_rent_filter (cfg : Config) (l : List Candidate) :
    (cfg.cian_deal_type = "rent" ∧ cfg.cian_rent_long_only = true →
      (∀ c ∈ longStageCian cfg l, c.rent_period ≠ some RentPeriod.daily)
      ∧ (∀ c ∈ l, c.rent_period = some RentPeriod.unknown → c ∈ longStageCian cfg l))
    ∧ (cfg.cian_rent_long_only = true →
      (∀ c ∈ longStageAvito cfg l, c.rent_period ≠ some RentPeriod.daily)
      ∧ (∀ c ∈ l, c.rent_period = some RentPeriod.unknown → c ∈ longStageAvito cfg l)) := by
  constructor
  · rintro ⟨h1, h2⟩
    have hcond : cfg.cian_deal_type = "rent" ∧ cfg.cian_rent_long_only := ⟨h1, h2⟩
    unfold longStageCian
    rw [if_pos hcond]
    constructor
    · intro c hc
      have hpc := (List.mem_filter.mp hc).2
      simpa using hpc
    · intro c hc hu
      refine List.mem_filter.mpr ⟨hc, ?_⟩
      simp [hu]
  · intro h2
    unfold longStageAvito
    rw [if_pos h2]
    constructor
    · intro c hc
      have hpc := (List.mem_filter.mp hc).2
      simpa using hpc
    · intro c hc hu
      refine List.mem_filter.mpr ⟨hc, ?_⟩
      simp [hu]

/-- Stored listing mirroring the spec scenario after first insertion. -/
def obj0 : StoredListing :=
  { id := 0, source := "cian", external_id := some "123", title := none,
    address := none, rooms := none, area_m2 := some 40, floor := none,
    floors_total := none, price_rub := some 50000, price_per_m2 := some 1250,
    url := some "u1" }

/-- Store holding `obj0` and its initial snapshot. -/
def s0 : Store :=
  { listings := [obj0]
    snapshots := [{ listing_id := 0, price_rub := some 50000, price_per_m2 := some 1250 }]
    nextId := 1 }

/-- Re-submission of the stored listing with a changed price. -/
def c55 : Candidate :=
  { baseCand with
    external_id := some "123"
    url := some "u1"
    area_m2 := some 40
    price_rub := some 55000 }

/-- Re-submission with the identical price. -/
def cSamePrice : Candidate :=
  { baseCand with
    external_id := some "123"
    url := some "u1"
    area_m2 := some 40
    price_rub := some 50000 }

/-- Re-submission with price 0: present and different from the stored
price, but falsy in Python. -/
def cZero : Candidate :=
  { baseCand with
    external_id := some "123"
    url := some "u1"
    area_m2 := some 40
    price_rub := some 0 }

/-- The spec §8 scenario candidate. -/
def cScenario : Candidate :=
  { baseCand with
    external_id := some "123"
    url := some "u1"
    area_m2 := some 40
    price_rub := some 50000 }

/-- Fresh candidate with price 0 and area 40. -/
def cZeroIns : Candidate :=
  { baseCand with
    external_id := some "9"
    url := some "u9"
    area_m2 := some 40
    price_rub := some 0 }

/-- Candidate with a url but no external id. -/
def cNoExt : Candidate :=
  { baseCand with
    url := some "u"
    area_m2 := some 30
    price_rub := some 100 }

/-- Witness for `c6_long_rent_filter` at concrete inputs. -/
theorem c6_long_rent_filter_witness :
    (cDaily ∈ longStageCian cfgRent [cDaily, cUnknown] → False)
    ∧ cUnknown ∈ longStageCian cfgRent [cDaily, cUnknown]
    ∧ (cDaily ∈ longStageAvito cfgRent [cDaily, cUnknown] → False)
    ∧ cUnknown ∈ longStageAvito cfgRent [cDaily, cUnknown] := by
  have h := c6_long_rent_filter cfgRent [cDaily, cUnknown]
  refine ⟨fun hmem => (h.1 ⟨rfl, rfl⟩).1 cDaily hmem rfl,
    (h.1 ⟨rfl, rfl⟩).2 cUnknown (by decide) rfl,
    fun hmem => (h.2 rfl).1 cDaily hmem rfl,
    (h.2 rfl).2 cUnknown (by decide) rfl⟩

/-! ### Lemmas about the reconciliation engine -/

theorem find_replaceFirst (l : List StoredListing) (pred : StoredListing → Bool)
    (x obj : StoredListing) (h : l.find? pred = some obj) :
    ∃ i, l.get? i = some obj ∧ replaceFirst l pred x = l.set i x := by
  induction l with
  | nil => simp [List.find?] at h
  | cons a t ih =>
    by_cases hp : pred a
    · have ha : obj = a := by
        have := List.find?_cons_of_pos t hp
        rw [this] at h
        exact (Option.some.inj h).symm
      subst ha
      exact ⟨0, rfl, by simp [replaceFirst, hp]⟩
    · have h' : t.find? pred = some obj := by
        have := List.find?_cons_of_neg t hp
        rw [this] at h
        exact h
      obtain ⟨i, h1, h2⟩ := ih h'
      refine ⟨i + 1, h1, ?_⟩
      simp [replaceFirst, hp, h2]

/-- C1 counterexample: a candidate whose price_rub is present (= 0) and
differs from the stored price leaves the store completely unchanged — no
price update and no snapshot — because `upsert_listing` tests
`if new_price and ...` (Python truthiness), under which 0 counts as
absent. -/
theorem c1_counterexample :
    cZero.price_rub = some 0
    ∧ find_listing s0 cZero.source cZero.external_id = some obj0
    ∧ cZero.price_rub ≠ obj0.price_rub
    ∧ upsert_listing s0 cZero = s0 := by
  decide

/-- C1 (amended): when a candidate matches a stored listing and its
price_rub is present, nonzero and different from the stored price, the
stored row has its price_rub set to the candidate value and its
price_per_m2 recomputed as new price / (candidate area if present and
nonzero, else stored area if present and nonzero, else 1), exactly one
snapshot carrying those values is appended, every other field of the row
and every other row is unchanged; otherwise (price absent, zero, or equal
to the stored price) the store is completely unchanged. -/
theorem c1_price_update (s : Store) (p : Candidate) (obj : StoredListing)
    (h : find_listing s p.source p.external_id = some obj) :
    (∀ v : ℤ, p.price_rub = some v → v ≠ 0 → some v ≠ obj.price_rub →
      ((upsert_listing s p).snapshots = s.snapshots ++
        [{ listing_id := obj.id, price_rub := some v,
           price_per_m2 := some ((v : ℚ) / pyOrQ p.area_m2 (pyOrQ obj.area_m2 1)) }])
      ∧ (upsert_listing s p).nextId = s.nextId
      ∧ ∃ i, s.listings.get? i = some obj
          ∧ (upsert_listing s p).listings = s.listings.set i (updated_listing obj p v)
          ∧ (updated_listing obj p v).price_rub = some v
          ∧ (updated_listing obj p v).price_per_m2
              = some ((v : ℚ) / pyOrQ p.area_m2 (pyOrQ obj.area_m2 1))
          ∧ (updated_listing obj p v).id = obj.id
          ∧ (updated_listing obj p v).source = obj.source
          ∧ (updated_listing obj p v).external_id = obj.external_id
          ∧ (updated_listing obj p v).title = obj.title
          ∧ (updated_listing obj p v).address = obj.address
          ∧ (updated_listing obj p v).rooms = obj.rooms
          ∧ (updated_listing obj p v).area_m2 = obj.area_m2
          ∧ (updated_listing obj p v).floor = obj.floor
          ∧ (updated_listing obj p v).floors_total = obj.floors_total
          ∧ (updated_listing obj p v).url = obj.url)
    ∧ ((p.price_rub = none ∨ p.price_rub = some 0 ∨ p.price_rub = obj.price_rub) →
      upsert_listing s p = s) := by
  constructor
  · intro v hv hv0 hne
    have hup : upsert_listing s p =
      { listings := replaceFirst s.listings (listing_pred p.source p.external_id)
          (updated_listing obj p v)
        snapshots := s.snapshots ++
          [{ listing_id := obj.id, price_rub := some v,
             price_per_m2 := some ((v : ℚ) / pyOrQ p.area_m2 (pyOrQ obj.area_m2 1)) }]
        nextId := s.nextId } := by
      simp only [upsert_listing, h, hv]
      rw [if_pos ⟨hv0, hne⟩]
      rfl
    refine ⟨by rw [hup], by rw [hup], ?_⟩
    obtain ⟨i, h1, h2⟩ := find_replaceFirst s.listings
      (listing_pred p.source p.external_id) (updated_listing obj p v) obj h
    exact ⟨i, h1, by rw [hup]; exact h2,
      rfl, rfl, rfl, rfl, rfl, rfl, rfl, rfl, rfl, rfl, rfl, rfl⟩
  · intro hB
    cases hp : p.price_rub with
    | none =>
      simp only [upsert_listing, h, hp]
    | some v =>
      simp only [upsert_listing, h, hp]
      rw [if_neg]
      rintro ⟨h0, hne⟩
      rcases hB with hB | hB | hB
      · rw [hp] at hB
        exact Option.noConfusion hB
      · rw [hp] at hB
        exact h0 (Option.some.inj hB)
      · rw [hp] at hB
        exact hne hB

/-- Witness for `c1_price_update`: the spec §8 re-submission scenario —
price 55000 against stored 50000 appends one snapshot with price_per_m2
1375, and re-submitting the identical price leaves the store untouched. -/
theorem c1_price_update_witness :
    (upsert_listing s0 c55).snapshots = s0.snapshots ++
      [{ listing_id := 0, price_rub := some 55000, price_per_m2 := some 1375 }]
    ∧ upsert_listing s0 cSamePrice = s0 := by
  have hA := (c1_price_update s0 c55 obj0 (by decide)).1 55000 rfl
    (by decide) (by decide)
  have hB := (c1_price_update s0 cSamePrice obj0 (by decide)).2
    (Or.inr (Or.inr (by decide)))
  refine ⟨hA.1.trans ?_, hB⟩
  have hq : ((55000 : ℤ) : ℚ) / pyOrQ c55.area_m2 (pyOrQ obj0.area_m2 1) = 1375 := by
    norm_num [c55, obj0, baseCand, pyOrQ]
  rw [hq]
  rfl

/-- C2 counterexample: a fresh candidate with price_rub present (= 0) and
area present (= 40) is inserted with price_per_m2 kept from the payload
(here absent) instead of price_rub / area_m2, because the insert branch
tests `if payload.get("area_m2") and payload.get("price_rub")` (Python
truthiness), under which 0 counts as absent. -/
theorem c2_counterexample :
    cZeroIns.price_rub = some 0
    ∧ cZeroIns.area_m2 = some 40
    ∧ (upsert_listing emptyStore cZeroIns).listings.map (fun l => l.price_per_m2)
        = [none]
    ∧ (none : Option ℚ) ≠ some (((0 : ℤ) : ℚ) / 40) := by
  refine ⟨rfl, rfl, ?_, ?_⟩
  · decide
  · intro hcon
    exact Option.noConfusion hcon

/-- C2 (amended): reconciling a candidate with no existing stored listing
appends exactly one new stored listing whose fields mirror the candidate,
with price_per_m2 set to price_rub / area_m2 when both are present and
nonzero (otherwise the price_per_m2 field of the candidate is stored
as-is), and appends exactly one snapshot mirroring the price fields of
the new listing; in the spec scenario the stored price_per_m2 is 1250 and
exactly one snapshot is written. -/
theorem c2_insert (s : Store) (p : Candidate)
    (h : find_listing s p.source p.external_id = none) :
    (∃ obj : StoredListing,
      (upsert_listing s p).listings = s.listings ++ [obj]
      ∧ (upsert_listing s p).snapshots = s.snapshots ++
          [{ listing_id := obj.id, price_rub := obj.price_rub,
             price_per_m2 := obj.price_per_m2 }]
      ∧ obj.id = s.nextId
      ∧ obj.source = p.source
      ∧ obj.external_id = p.external_id
      ∧ obj.title = p.title
      ∧ obj.address = p.address
      ∧ obj.rooms = p.rooms
      ∧ obj.area_m2 = p.area_m2
      ∧ obj.floor = p.floor
      ∧ obj.floors_total = p.floors_total
      ∧ obj.price_rub = p.price_rub
      ∧ obj.url = p.url
      ∧ (∀ (a : ℚ) (pr : ℤ), p.area_m2 = some a → p.price_rub = some pr →
          a ≠ 0 → pr ≠ 0 → obj.price_per_m2 = some ((pr : ℚ) / a))
      ∧ ((p.area_m2 = none ∨ p.area_m2 = some 0
          ∨ p.price_rub = none ∨ p.price_rub = some 0) →
          obj.price_per_m2 = p.price_per_m2))
    ∧ (upsert_listing emptyStore cScenario).listings.map (fun l => l.price_per_m2)
        = [some 1250]
    ∧ (upsert_listing emptyStore cScenario).snapshots
        = [{ listing_id := 0, price_rub := some 50000, price_per_m2 := some 1250 }] := by
  have hscen : insert_ppm2 cScenario = some 1250 := by
    simp [insert_ppm2, cScenario, baseCand]
    norm_num
  refine ⟨?_, ?_, ?_⟩
  · refine ⟨new_listing s.nextId p, ?_, ?_, rfl, rfl, rfl, rfl, rfl, rfl, rfl,
      rfl, rfl, rfl, rfl, ?_, ?_⟩
    · simp only [upsert_listing, h]
    · simp only [upsert_listing, h]
    · intro a pr ha hpr ha0 hpr0
      simp [new_listing, insert_ppm2, ha, hpr, ha0, hpr0]
    · intro hcase
      rcases hcase with hc | hc | hc | hc
      · simp [new_listing, insert_ppm2, hc]
      · cases hp : p.price_rub <;> simp [new_listing, insert_ppm2, hc, hp]
      · cases ha : p.area_m2 <;> simp [new_listing, insert_ppm2, hc, ha]
      · cases ha : p.area_m2 <;> simp [new_listing, insert_ppm2, hc, ha]
  · simp [upsert_listing, find_listing, emptyStore, new_listing, hscen]
  · simp [upsert_listing, find_listing, emptyStore, new_listing, hscen]
    decide

/-- Witness for `c2_insert`: the spec scenario candidate against the
empty store. -/
theorem c2_insert_witness :
    (upsert_listing emptyStore cScenario).listings.map (fun l => l.price_per_m2)
      = [some 1250]
    ∧ (upsert_listing emptyStore cScenario).snapshots
      = [{ listing_id := 0, price_rub := some 50000, price_per_m2 := some 1250 }] :=
  (c2_insert emptyStore cScenario rfl).2

/-- C9 counterexample: a candidate whose external_id is absent but whose
url is present is kept by the parser-level filter and is inserted by the
reconciliation engine with a null external_id. -/
theorem c9_counterexample :
    cNoExt.external_id = none
    ∧ keep_with_url [cNoExt] = [cNoExt]
    ∧ (upsert_listing emptyStore cNoExt).listings.map (fun l => l.external_id)
      = [none] := by
  decide

/-- C9 (amended): the extractors drop exactly the candidates whose url is
absent or empty before reconciliation; a candidate lacking only an
external_id is kept. -/
theorem c9_url_filter (l : List Candidate) (c : Candidate) :
    (c ∈ keep_with_url l ↔ c ∈ l ∧ pyTruthyStr c.url = true)
    ∧ (c.url = none → c ∉ keep_with_url l)
    ∧ (c.url = some "" → c ∉ keep_with_url l) := by
  refine ⟨List.mem_filter, ?_, ?_⟩
  · intro hu hmem
    have hval := (List.mem_filter.mp hmem).2
    rw [hu] at hval
    exact Bool.noConfusion hval
  · intro hu hmem
    have hval := (List.mem_filter.mp hmem).2
    rw [hu] at hval
    simp [pyTruthyStr] at hval

/-! ### Lemmas about the fetch retry loop -/

theorem retry_fetch_fail (f : ℕ → Except FetchErr String) (e : FetchErr)
    (hf : ∀ a, f a = Except.error e) :
    retry_fetch f = (Except.error e, 4, [wait_cian 1, wait_cian 2, wait_cian 3]) := by
  simp [retry_fetch, hf 1, hf 2, hf 3, hf 4]

theorem retry_fetch_ok (f : ℕ → Except FetchErr String) (h : String)
    (hf : f 1 = Except.ok h) :
    retry_fetch f = (Except.ok h, 1, []) := by
  simp [retry_fetch, hf]

theorem fetch_pages_go_collect (resp : ℕ → ℕ → Response)
    (parse : String → List Candidate) (htmlOf : ℕ → String) (p : ℕ) (e : FetchErr)
    (hfail : ∀ a, classify_cian (resp p a) = Except.error e) :
    ∀ fuel start, start ≤ p → p < start + fuel →
    (∀ q, start ≤ q → q < p →
      (∀ a, classify_cian (resp q a) = Except.ok (htmlOf q))
      ∧ 5 ≤ (parse (htmlOf q)).length) →
    fetch_pages_go resp parse start fuel
      = ((List.range' start (p - start)).map (fun q => parse (htmlOf q))).flatten := by
  intro fuel
  induction fuel with
  | zero =>
    intro start h1 h2 _
    omega
  | succ n ih =>
    intro start h1 h2 hok
    by_cases hsp : start = p
    · subst hsp
      have hr := retry_fetch_fail _ e hfail
      simp [fetch_pages_go, hr]
    · have hlt : start < p := lt_of_le_of_ne h1 hsp
      have hq := hok start le_rfl hlt
      have hok1 := retry_fetch_ok (fun a => classify_cian (resp start a)) (htmlOf start) (hq.1 1)
      have hrec := ih (start + 1) hlt (by omega) (fun q hq1 hq2 => hok q (by omega) hq2)
      have hlen : ¬ ((parse (htmlOf start)).length < 5) := by
        have := hq.2
        omega
      have hps : p - start = (p - (start + 1)) + 1 := by omega
      rw [hps]
      simp [fetch_pages_go, hok1, hlen, hrec, List.range']

/-- C8: a page whose fetch keeps failing is attempted exactly 4 times
(`stop_after_attempt(4)`) with the exponential backoff delays of
`wait_exponential(multiplier=0.8, min=1, max=10)` and the error is
returned; the page loop then stops and still returns the candidates of
the pages already fetched; and the orchestrator reconciles the avito
candidates regardless of the cian failure. -/
theorem c8_retry_and_partial_collection
    (resp : ℕ → ℕ → Response) (parse : String → List Candidate)
    (htmlOf : ℕ → String) (maxPages p : ℕ) (e : FetchErr) (cfg : Config)
    (db : Store) (avitoItems : List Candidate)
    (hp1 : 1 ≤ p) (hp2 : p ≤ max 1 maxPages)
    (hfail : ∀ a, classify_cian (resp p a) = Except.error e)
    (hok : ∀ q, 1 ≤ q → q < p →
      (∀ a, classify_cian (resp q a) = Except.ok (htmlOf q))
      ∧ 5 ≤ (parse (htmlOf q)).length) :
    retry_fetch (fun a => classify_cian (resp p a))
      = (Except.error e, 4, [wait_cian 1, wait_cian 2, wait_cian 3])
    ∧ wait_cian 1 = 8 / 5 ∧ wait_cian 2 = 16 / 5 ∧ wait_cian 3 = 32 / 5
    ∧ fetch_pages_cian resp parse maxPages
        = ((List.range' 1 (p - 1)).map (fun q => parse (htmlOf q))).flatten
    ∧ (cfg.cian_max_pages = maxPages →
        job_scrape_city db (fetch_cian_model cfg resp parse) avitoItems
          = upsert_all (upsert_all db (cianNormalize cfg
              (((List.range' 1 (p - 1)).map (fun q => parse (htmlOf q))).flatten)))
              avitoItems) := by
  have h4 : fetch_pages_cian resp parse maxPages
      = ((List.range' 1 (p - 1)).map (fun q => parse (htmlOf q))).flatten :=
    fetch_pages_go_collect resp parse htmlOf p e hfail (max 1 maxPages) 1 hp1
      (by omega) (fun q hq1 hq2 => hok q hq1 hq2)
  refine ⟨retry_fetch_fail _ e hfail, ?_, ?_, ?_, h4, ?_⟩
  · norm_num [wait_cian]
  · norm_num [wait_cian]
  · norm_num [wait_cian]
  · intro hm
    unfold job_scrape_city fetch_cian_model
    rw [hm, h4]

/-- Response oracle that always yields HTTP 403 with a short body. -/
def resp403 : ℕ → ℕ → Response := fun _ _ => { status := 403, body := "x" }

/-- Parser yielding no candidates. -/
def parseNone : String → List Candidate := fun _ => []

/-- Placeholder page bodies. -/
def htmlNone : ℕ → String := fun _ => ""

/-- Witness for `c8_retry_and_partial_collection`: the first page fails on
all four attempts with HTTP 403. -/
theorem c8_retry_witness :
    retry_fetch (fun a => classify_cian (resp403 1 a))
      = (Except.error (FetchErr.httpStatus 403), 4,
         [wait_cian 1, wait_cian 2, wait_cian 3])
    ∧ fetch_pages_cian resp403 parseNone 3
      = ((List.range' 1 (1 - 1)).map (fun q => parseNone (htmlNone q))).flatten
    ∧ job_scrape_city emptyStore (fetch_cian_model cfgRent resp403 parseNone) []
      = upsert_all (upsert_all emptyStore (cianNormalize cfgRent
          (((List.range' 1 (1 - 1)).map (fun q => parseNone (htmlNone q))).flatten))) [] := by
  have h := c8_retry_and_partial_collection resp403 parseNone htmlNone 3 1
    (FetchErr.httpStatus 403) cfgRent emptyStore [] le_rfl (by decide)
    (fun a => rfl) (fun q hq1 hq2 => absurd hq2 (Nat.not_lt.mpr hq1))
  exact ⟨h.1, h.2.2.2.2.1, h.2.2.2.2.2 rfl⟩

/-- Witness for `c9_url_filter` at concrete inputs. -/
theorem c9_url_filter_witness :
    (cNoExt ∈ keep_with_url [cNoExt] ↔ cNoExt ∈ [cNoExt] ∧ pyTruthyStr cNoExt.url = true)
    ∧ baseCand ∉ keep_with_url [baseCand] := by
  refine ⟨(c9_url_filter [cNoExt] cNoExt).1, ?_⟩
  exact (c9_url_filter [baseCand] baseCand).2.1 rfl

